import Mathlib

/-!
Verification of the moodpaper client against its specification.

The development shallowly embeds the TypeScript sources:
  - src/utils/safeStorage.ts   (resilient key-value store)
  - src/services/geminiService.ts  (credential handling and generation client)
  - src/App.tsx                (the handleGenerate coordinator action)

JavaScript exceptions are modelled by the `Thrown` type inside `Except`;
the external generative provider is modelled as an oracle giving the
outcome of each network call.  JavaScript string helpers used by the code
(`split(",")`, `trim()`, `includes`, the falsy coalescing `x || y`) are
embedded as structural functions over `List Char` so that every
definition evaluates inside the kernel.
-/

/-- A value thrown by JavaScript code: either an `Error` object carrying a
message, or some non-`Error` value (for which `instanceof Error` is false). -/
inductive Thrown where
  | jsError (message : String)
  | other
  deriving DecidableEq, Repr

/-- Result of `x.isOk`-style inspection of an `Except` value: `true` exactly
when no value was thrown. -/
def exceptOk {ε α : Type} : Except ε α → Bool
  | .ok _ => true
  | .error _ => false

/-- JavaScript `a || b` on strings: the empty string is falsy. -/
def jsOrString (x : Option String) (dflt : String) : String :=
  match x with
  | some s => if s = "" then dflt else s
  | none => dflt

/-- JavaScript `x || null` where `x : string | undefined`: the empty string
is falsy and collapses to `null`. -/
def jsOrNull (x : Option String) : Option String :=
  match x with
  | some s => if s = "" then none else some s
  | none => none

/-- JavaScript whitespace test for the characters relevant to `trim()`. -/
def isWhite (c : Char) : Bool :=
  c == ' ' || c == '\t' || c == '\n' || c == '\r'

/-- Drop leading whitespace characters. -/
def dropLeadingWhite : List Char → List Char
  | [] => []
  | c :: rest => if isWhite c then dropLeadingWhite rest else c :: rest

/-- JavaScript `s.trim()`. -/
def jsTrim (s : String) : String :=
  String.mk ((dropLeadingWhite ((dropLeadingWhite s.data).reverse)).reverse)

/-- Does `pat` occur starting at the head of the list? -/
def leadsWith : List Char → List Char → Bool
  | [], _ => true
  | _ :: _, [] => false
  | a :: as, b :: bs => a == b && leadsWith as bs

/-- Does `pat` occur anywhere in the list? -/
def occursIn (pat : List Char) : List Char → Bool
  | [] => pat.isEmpty
  | c :: rest => leadsWith pat (c :: rest) || occursIn pat rest

/-- JavaScript `s.includes(pat)`. -/
def stringIncludes (s pat : String) : Bool :=
  occursIn pat.data s.data

/-- JavaScript `s.split(",")`, auxiliary: `acc` holds the reversed current
segment. -/
def splitCommaAux : List Char → List Char → List String
  | acc, [] => [String.mk acc.reverse]
  | acc, c :: rest =>
    if c = ',' then String.mk acc.reverse :: splitCommaAux [] rest
    else splitCommaAux (c :: acc) rest

/-- JavaScript `s.split(",")`. -/
def splitComma (s : String) : List String :=
  splitCommaAux [] s.data

/-! ## Resilient key-value store (src/utils/safeStorage.ts) -/

/-- Behaviour of the underlying browser `localStorage`: absent (the
`typeof window !== undefined && window.localStorage` guard is false),
throwing on every access, or working with the given contents. -/
inductive LSBehavior where
  | absent
  | throwing
  | working (store : List (String × String))
  deriving DecidableEq, Repr

/-- The state visible to `safeStorage`: the persistent layer and the
module-level `memoryStore` object. -/
structure StorageState where
  ls : LSBehavior
  mem : List (String × String)
  deriving DecidableEq, Repr

/-- Lookup in a JavaScript-object-like association list. -/
def assocGet : List (String × String) → String → Option String
  | [], _ => none
  | (k1, v1) :: rest, k => if k1 = k then some v1 else assocGet rest k

/-- Property write `m[k] = v`: the new binding shadows any older one. -/
def assocSet (m : List (String × String)) (k v : String) : List (String × String) :=
  (k, v) :: m

/-- Property delete `delete m[k]`. -/
def assocRemove (m : List (String × String)) (k : String) : List (String × String) :=
  m.filter (fun kv => kv.1 != k)

/-- Message of the exception thrown by a blocked storage access. -/
def securityErrMsg : String := "SecurityError: storage access denied"

/-- `safeStorage.getItem`: inside `try`, when the guard holds the function
returns the `localStorage` result directly; on a caught throw or when the
guard is false, execution falls through to `memoryStore[key] || null`.
The `Except` result records whether the caller observes a throw. -/
def safeStorage.getItem (st : StorageState) (key : String) : Except Thrown (Option String) :=
  let tryBlock : Except Thrown (Option (Option String)) :=
    match st.ls with
    | .absent => .ok none
    | .throwing => .error (.jsError securityErrMsg)
    | .working store => .ok (some (assocGet store key))
  match tryBlock with
  | .ok (some r) => .ok r
  | .ok none => .ok (jsOrNull (assocGet st.mem key))
  | .error _ => .ok (jsOrNull (assocGet st.mem key))

/-- `safeStorage.setItem`: inside `try`, the guarded `localStorage.setItem`
may throw and is silently caught; afterwards the value is always written to
`memoryStore` for same-session consistency. -/
def safeStorage.setItem (st : StorageState) (key value : String) : Except Thrown StorageState :=
  let tryBlock : Except Thrown StorageState :=
    match st.ls with
    | .absent => .ok st
    | .throwing => .error (.jsError securityErrMsg)
    | .working store => .ok { st with ls := .working (assocSet store key value) }
  let afterTry : StorageState :=
    match tryBlock with
    | .ok st2 => st2
    | .error _ => st
  .ok { afterTry with mem := assocSet afterTry.mem key value }

/-- `safeStorage.removeItem`: the guarded `localStorage.removeItem` may
throw and is silently caught; the `memoryStore` entry is always deleted. -/
def safeStorage.removeItem (st : StorageState) (key : String) : Except Thrown StorageState :=
  let tryBlock : Except Thrown StorageState :=
    match st.ls with
    | .absent => .ok st
    | .throwing => .error (.jsError securityErrMsg)
    | .working store => .ok { st with ls := .working (assocRemove store key) }
  let afterTry : StorageState :=
    match tryBlock with
    | .ok st2 => st2
    | .error _ => st
  .ok { afterTry with mem := assocRemove afterTry.mem key }

/-! ## Generation client (src/services/geminiService.ts) -/

/-- Message of the error thrown by `getClient` when no key is set. -/
def missingKeyMsg : String :=
  "API Key가 설정되지 않았습니다. 설정 버튼을 눌러 키를 입력해주세요."

/-- Aggregate message thrown by `generateWallpapers` for a missing-key
failure. -/
def wallpaperMissingKeyMsg : String := "API Key가 설정되지 않았습니다."

/-- Aggregate message thrown by `generateWallpapers` for any other
failure. -/
def wallpaperFailMsg : String :=
  "배경화면 생성 중 오류가 발생했습니다. 다시 시도해주세요."

/-- Message of the error thrown when a response holds no image data. -/
def noImageMsg : String := "이미지를 생성하지 못했습니다."

/-- Message standing for the TypeError raised when the code reads
`candidates[0].content` on an empty `candidates` array. -/
def typeErrorContentMsg : String :=
  "TypeError: cannot read content of undefined"

/-- Fallback message shown by the coordinator for a thrown non-Error. -/
def unknownErrMsg : String := "알 수 없는 오류가 발생했습니다."

/-- The discriminator used by every catch block of the service:
`error instanceof Error && error.message.includes("API Key")`.  Per the
specification this is exactly what distinguishes a MissingCredential
condition from a generic ProviderFailure. -/
def isApiKeyError : Thrown → Bool
  | .jsError m => stringIncludes m "API Key"
  | .other => false

/-- Response of a text-generation call: the `text` field may be absent. -/
structure TextResponse where
  text : Option String
  deriving DecidableEq, Repr

/-- The `inlineData` payload of a response part. -/
structure InlineData where
  mimeType : Option String
  data : Option String
  deriving DecidableEq, Repr

/-- One part of a candidate content; only `inlineData` is inspected. -/
structure ResponsePart where
  inlineData : Option InlineData
  deriving DecidableEq, Repr

/-- The `content` of a candidate; its `parts` field may be absent. -/
structure Content where
  parts : Option (List ResponsePart)
  deriving DecidableEq, Repr

/-- One candidate of an image-generation response. -/
structure Candidate where
  content : Content
  deriving DecidableEq, Repr

/-- Response of an image-generation call; `candidates` may be absent. -/
structure ImageResponse where
  candidates : Option (List Candidate)
  deriving DecidableEq, Repr

/-- The record produced for each generated wallpaper (src/types.ts). -/
structure GeneratedImage where
  id : String
  url : String
  prompt : String
  createdAt : Nat
  deriving DecidableEq, Repr

/-- `setApiKey`: an empty key is falsy and clears the client. -/
def setApiKey (apiKey : String) : Option String :=
  if apiKey = "" then none else some apiKey

/-- `getClient`: throws the missing-key error when no client is set. -/
def getClient (genAI : Option String) : Except Thrown String :=
  match genAI with
  | none => .error (.jsError missingKeyMsg)
  | some client => .ok client

/-- `validateApiKey`: the construction of the temporary client and the
probe request both happen inside the try block, so their outcome is
absorbed into the `probe` oracle; any throw maps to `false`. -/
def validateApiKey (apiKey : String) (probe : Except Thrown TextResponse) : Except Thrown Bool :=
  match probe with
  | .ok _ => .ok true
  | .error _ => .ok false

/-- `generateCreativePrompt`: on success returns
`response.text?.trim() || topic`; the catch block rethrows exactly the
errors whose message mentions the API key and otherwise falls back to the
topic itself. -/
def generateCreativePrompt (genAI : Option String) (provider : Except Thrown TextResponse)
    (topic : String) : Except Thrown String :=
  let body : Except Thrown String :=
    match getClient genAI with
    | .error e => .error e
    | .ok _ =>
      match provider with
      | .error e => .error e
      | .ok resp => .ok (jsOrString (resp.text.map jsTrim) topic)
  match body with
  | .ok s => .ok s
  | .error e => if isApiKeyError e then .error e else .ok topic

/-- `text.split(",").map(t => t.trim()).filter(t => t.length > 0)`. -/
def parseTopics (text : String) : List String :=
  ((splitComma text).map jsTrim).filter (fun t => decide (0 < t.length))

/-- The built-in fallback list of themes. -/
def fallbackTopics : List String :=
  ["몽환적인 밤하늘", "비 오는 도시", "차분한 숲속", "미니멀한 기하학", "빈티지 필름 감성"]

/-- `generateTopicSuggestions`: parses `response.text || ""`; the catch
block rethrows API-key errors and otherwise returns the fallback list. -/
def generateTopicSuggestions (genAI : Option String)
    (provider : Except Thrown TextResponse) : Except Thrown (List String) :=
  let body : Except Thrown (List String) :=
    match getClient genAI with
    | .error e => .error e
    | .ok _ =>
      match provider with
      | .error e => .error e
      | .ok resp => .ok (parseTopics (jsOrString resp.text ""))
  match body with
  | .ok l => .ok l
  | .error e => if isApiKeyError e then .error e else .ok fallbackTopics

/-- Data URL built for an extracted payload:
`data:(mimeType || image/png);base64,(data)`. -/
def mkDataUrl (mime : Option String) (payload : String) : String :=
  "data:" ++ jsOrString mime "image/png" ++ ";base64," ++ payload

/-- The loop over `candidates[0].content.parts`: returns the data URL of
the first part whose `inlineData.data` is present and truthy. -/
def findInlineImage : List ResponsePart → Option String
  | [] => none
  | p :: rest =>
    match p.inlineData with
    | some d =>
      match d.data with
      | some s => if s = "" then findInlineImage rest else some (mkDataUrl d.mimeType s)
      | none => findInlineImage rest
    | none => findInlineImage rest

/-- The request text sent by `generateSingleImage`; it only shapes the
request to the provider oracle. -/
def enhancedPrompt (prompt : String) (referenceImage : Option String) : String :=
  match referenceImage with
  | some _ =>
    "Remix this image based on these instructions: " ++ prompt ++
      ". Ensure high quality, aesthetic, phone wallpaper style."
  | none =>
    prompt ++ ". High quality, aesthetic, 9:16 vertical phone wallpaper, highly detailed, atmospheric."

/-- Image extraction of `generateSingleImage`.  The JavaScript guard is
`response.candidates && response.candidates[0].content.parts`: an absent
`candidates` field is falsy and the code falls through to the
no-image throw, but an empty array is truthy, `candidates[0]` is
undefined and reading its `content` raises a TypeError. -/
def extractFirstImage (resp : ImageResponse) : Except Thrown String :=
  match resp.candidates with
  | none => .error (.jsError noImageMsg)
  | some [] => .error (.jsError typeErrorContentMsg)
  | some (c :: _) =>
    match c.content.parts with
    | none => .error (.jsError noImageMsg)
    | some parts =>
      match findInlineImage parts with
      | some url => .ok url
      | none => .error (.jsError noImageMsg)

/-- `generateSingleImage`: requires the client, consults the provider
oracle, extracts the first inline image; its catch block only logs and
rethrows, so it is the identity on thrown errors. -/
def generateSingleImage (genAI : Option String) (provider : Except Thrown ImageResponse)
    (prompt : String) (referenceImage : Option String) : Except Thrown String :=
  match getClient genAI with
  | .error e => .error e
  | .ok _ =>
    match provider with
    | .error e => .error e
    | .ok resp => extractFirstImage resp

/-- `Promise.all` over the four render promises: succeeds with all four
values, or rejects with the first rejection (determinised in index
order). -/
def promiseAll4 (p0 p1 p2 p3 : Except Thrown String) : Except Thrown (List String) :=
  match p0 with
  | .error e => .error e
  | .ok u0 =>
    match p1 with
    | .error e => .error e
    | .ok u1 =>
      match p2 with
      | .error e => .error e
      | .ok u2 =>
        match p3 with
        | .error e => .error e
        | .ok u3 => .ok [u0, u1, u2, u3]

/-- The `results.map((url, index) => ...)` step.  `Date.now()` is modelled
by the `clock` oracle, consulted once for the id and once for
`createdAt` of each entry, in evaluation order. -/
def mkGeneratedImages (clock : Nat → Nat) (prompt : String) (urls : List String) :
    List GeneratedImage :=
  urls.mapIdx fun i url =>
    { id := toString (clock (2 * i)) ++ "-" ++ toString i
      url := url
      prompt := prompt
      createdAt := clock (2 * i + 1) }

/-- `generateWallpapers`: issues exactly four `generateSingleImage` calls
with identical inputs (each consulting its own provider oracle entry),
joins them all-or-nothing, and maps any failure to one of the two
aggregate errors according to the API-key discriminator. -/
def generateWallpapers (genAI : Option String) (providers : Fin 4 → Except Thrown ImageResponse)
    (clock : Nat → Nat) (prompt : String) (referenceImage : Option String) :
    Except Thrown (List GeneratedImage) :=
  match promiseAll4
      (generateSingleImage genAI (providers 0) prompt referenceImage)
      (generateSingleImage genAI (providers 1) prompt referenceImage)
      (generateSingleImage genAI (providers 2) prompt referenceImage)
      (generateSingleImage genAI (providers 3) prompt referenceImage) with
  | .ok urls => .ok (mkGeneratedImages clock prompt urls)
  | .error e =>
    if isApiKeyError e then .error (.jsError wallpaperMissingKeyMsg)
    else .error (.jsError wallpaperFailMsg)

/-! ## Application state coordinator (src/App.tsx, handleGenerate) -/

/-- The slice of component state read or written by `handleGenerate`. -/
structure AppState where
  apiKey : String
  prompt : String
  images : List GeneratedImage
  isLoading : Bool
  error : Option String
  remixSource : Option GeneratedImage
  isSettingsOpen : Bool
  deriving DecidableEq, Repr

/-- `err instanceof Error ? err.message : "알 수 없는 오류가 발생했습니다."`. -/
def thrownMessage : Thrown → String
  | .jsError m => m
  | .other => unknownErrMsg

/-- `handleGenerate`: the two guards may abort without issuing a request;
otherwise loading is set and the previous images and error are cleared,
the request is issued, and the settled state is computed.  The second
component is the in-flight snapshot taken just before the request is
issued (`none` when no request was issued). -/
def handleGenerate (genAI : Option String) (providers : Fin 4 → Except Thrown ImageResponse)
    (clock : Nat → Nat) (s : AppState) : AppState × Option AppState :=
  if s.apiKey = "" then ({ s with isSettingsOpen := true }, none)
  else if jsTrim s.prompt = "" then (s, none)
  else
    let inflight : AppState := { s with isLoading := true, error := none, images := [] }
    let result := generateWallpapers genAI providers clock s.prompt
      (s.remixSource.map (fun g => g.url))
    let settled : AppState :=
      match result with
      | .ok imgs => { inflight with images := imgs, remixSource := none }
      | .error e => { inflight with error := some (thrownMessage e) }
    ({ settled with isLoading := false }, some inflight)

/-! ## Specification-side helpers used by the theorems -/

/-- A response part carries usable image data when its `inlineData.data`
is present and non-empty. -/
def ResponsePart.hasImageData (p : ResponsePart) : Bool :=
  match p.inlineData with
  | some d =>
    match d.data with
    | some s => !(s == "")
    | none => false
  | none => false

/-- The data URL a part would produce, when it has usable image data. -/
def partDataUrl (p : ResponsePart) : Option String :=
  match p.inlineData with
  | some d =>
    match d.data with
    | some s => if s = "" then none else some (mkDataUrl d.mimeType s)
    | none => none
  | none => none

/-! ## Theorems -/

/-- Claim C1, counterexample: with an always-throwing persistent layer,
writing the empty string via `setItem` and reading it back via `getItem`
within the same session yields `none` (null), not the written value, because
the memory fallback read `memoryStore[key] || null` coalesces the falsy
empty string to null.  So the read does not return exactly the written
value for every value string. -/
theorem store_roundtrip_empty_value_cex :
    (safeStorage.setItem ⟨LSBehavior.throwing, []⟩ "moodpaper_api_key" "").bind
      (fun st => safeStorage.getItem st "moodpaper_api_key") = .ok none ∧
    (Except.ok none : Except Thrown (Option String)) ≠ .ok (some "") := by
  refine ⟨rfl, ?_⟩
  intro h
  exact Option.noConfusion (Except.ok.inj h)

/-- Claim C1, amended: for every key and every NON-EMPTY value string,
calling the store's `setItem(key, value)` and then `getItem(key)` within
the same session returns exactly the written value, even when every
operation of the underlying persistent storage layer throws (and likewise
when the layer is absent or working).  The empty-string value is the one
exception: it reads back as absent whenever the persistent layer is
unavailable, because the in-memory fallback read coalesces falsy values
to null. -/
theorem store_read_after_write (st st2 : StorageState) (key value : String)
    (hv : value ≠ "") (hset : safeStorage.setItem st key value = .ok st2) :
    safeStorage.getItem st2 key = .ok (some value) := by
  obtain ⟨ls, mem⟩ := st
  cases ls with
  | absent =>
    simp only [safeStorage.setItem, Except.ok.injEq] at hset
    subst hset
    simp [safeStorage.getItem, assocSet, assocGet, jsOrNull, hv]
  | throwing =>
    simp only [safeStorage.setItem, Except.ok.injEq] at hset
    subst hset
    simp [safeStorage.getItem, assocSet, assocGet, jsOrNull, hv]
  | working store =>
    simp only [safeStorage.setItem, Except.ok.injEq] at hset
    subst hset
    simp [safeStorage.getItem, assocSet, assocGet]

/-- Claim C1, witness for the amended theorem at a concrete input: a
throwing persistent layer, key `k`, value `v`. -/
theorem store_read_after_write_witness :
    safeStorage.getItem { ls := LSBehavior.throwing, mem := [("k", "v")] } "k" =
      .ok (some "v") :=
  store_read_after_write ⟨LSBehavior.throwing, []⟩ _ "k" "v" (by decide) rfl

/-- Claim C9: for every storage state (absent, throwing, or working
persistent layer, any memory contents), every key and every value, none of
the three store operations resolves to a thrown error: each returns an
ordinary value to its caller. -/
theorem store_ops_never_throw (st : StorageState) (key value : String) :
    exceptOk (safeStorage.getItem st key) = true ∧
    exceptOk (safeStorage.setItem st key value) = true ∧
    exceptOk (safeStorage.removeItem st key) = true := by
  obtain ⟨ls, mem⟩ := st
  cases ls <;>
    simp [safeStorage.getItem, safeStorage.setItem, safeStorage.removeItem, exceptOk]

/-- Claim C2: while no credential is armed (the client reference is null),
every Generation Client operation — craftPrompt, suggestTopics,
renderImage and renderWallpaperSet — fails with the missing-credential
error, and that error satisfies the API-key discriminator while the
generic provider-failure messages do not, so the two are distinguishable. -/
theorem unarmed_ops_missing_credential (tp : Except Thrown TextResponse)
    (ip : Except Thrown ImageResponse) (providers : Fin 4 → Except Thrown ImageResponse)
    (clock : Nat → Nat) (topic prompt : String) (ref : Option String) :
    generateCreativePrompt none tp topic = .error (.jsError missingKeyMsg) ∧
    generateTopicSuggestions none tp = .error (.jsError missingKeyMsg) ∧
    generateSingleImage none ip prompt ref = .error (.jsError missingKeyMsg) ∧
    generateWallpapers none providers clock prompt ref =
      .error (.jsError wallpaperMissingKeyMsg) ∧
    isApiKeyError (.jsError missingKeyMsg) = true ∧
    isApiKeyError (.jsError wallpaperMissingKeyMsg) = true ∧
    isApiKeyError (.jsError wallpaperFailMsg) = false ∧
    isApiKeyError (.jsError noImageMsg) = false :=
  ⟨rfl, rfl, rfl, rfl, by decide, by decide, by decide, by decide⟩

/-- Claim C10: arming the client with the empty string disarms it — the
empty string is falsy, so `setApiKey` clears the client reference, after
which each Generation Client operation fails with the missing-credential
error; a non-empty credential re-arms the client (`setApiKey` keeps it
exactly when it is non-empty). -/
theorem setApiKey_empty_disarms (tp : Except Thrown TextResponse)
    (ip : Except Thrown ImageResponse) (providers : Fin 4 → Except Thrown ImageResponse)
    (clock : Nat → Nat) (topic prompt k : String) (ref : Option String) :
    setApiKey "" = none ∧
    generateCreativePrompt (setApiKey "") tp topic = .error (.jsError missingKeyMsg) ∧
    generateTopicSuggestions (setApiKey "") tp = .error (.jsError missingKeyMsg) ∧
    generateSingleImage (setApiKey "") ip prompt ref = .error (.jsError missingKeyMsg) ∧
    generateWallpapers (setApiKey "") providers clock prompt ref =
      .error (.jsError wallpaperMissingKeyMsg) ∧
    isApiKeyError (.jsError missingKeyMsg) = true ∧
    setApiKey k = (if k = "" then none else some k) :=
  ⟨rfl, rfl, rfl, rfl, rfl, by decide, rfl⟩

/-- Claim C4: for every candidate credential and every behaviour of the
provider probe call, `validateApiKey` never throws: it resolves to `false`
exactly when the probe call fails (for any thrown value) and to `true`
exactly when the probe call succeeds. -/
theorem validate_never_throws (apiKey : String) (probe : Except Thrown TextResponse) :
    validateApiKey apiKey probe = .ok (exceptOk probe) := by
  cases probe <;> rfl

/-- Claim C5: when the provider call inside `generateCreativePrompt`
fails with thrown value `e` (the client being armed), the function
returns the theme string itself unchanged unless `e` satisfies the
missing-credential discriminator (an Error whose message mentions the API
key), in which case `e` propagates to the caller. -/
theorem craftPrompt_provider_failure (k topic : String) (e : Thrown) :
    generateCreativePrompt (some k) (.error e) topic =
      (if isApiKeyError e then .error e else .ok topic) := by
  rfl

/-- Claim C6, counterexample: with an armed client and a succeeding
provider whose text is `a, b`, `generateTopicSuggestions` returns the
two-element list `[a, b]`, not a sequence of exactly 5 strings. -/
theorem suggestTopics_not_always_five_cex :
    generateTopicSuggestions (some "k") (.ok { text := some "a, b" }) = .ok ["a", "b"] ∧
    ¬ ((["a", "b"] : List String).length = 5) :=
  ⟨rfl, by decide⟩

/-- Claim C6, amended: on success `suggestTopics` returns the provider
text split on commas, trimmed, with empty entries discarded — which has
exactly 5 entries only when the provider returns five comma-separated
non-empty themes; on a provider failure it returns the fixed built-in
fallback list of 5 non-empty themes, unless the failure satisfies the
missing-credential discriminator, in which case the error propagates. -/
theorem suggestTopics_spec (k : String) :
    (∀ r : TextResponse, generateTopicSuggestions (some k) (.ok r) =
      .ok (parseTopics (jsOrString r.text ""))) ∧
    (∀ e : Thrown, generateTopicSuggestions (some k) (.error e) =
      (if isApiKeyError e then .error e else .ok fallbackTopics)) ∧
    fallbackTopics.length = 5 ∧
    fallbackTopics.all (fun t => !(t == "")) = true :=
  ⟨fun _ => rfl, fun _ => rfl, rfl, by decide⟩

/-- Claim C7, counterexample: a provider response whose candidate list is
present but empty contains no inline image data, yet `generateSingleImage`
fails with the TypeError raised by reading `candidates[0].content`, which
is a different error from the no-image-produced one. -/
theorem renderImage_empty_candidates_cex :
    generateSingleImage (some "k") (.ok { candidates := some [] }) "p" none =
      .error (.jsError typeErrorContentMsg) ∧
    typeErrorContentMsg ≠ noImageMsg :=
  ⟨rfl, by decide⟩

/-- The extraction loop returns exactly the data URL of the first part
carrying usable image data. -/
theorem findInlineImage_eq_find (parts : List ResponsePart) :
    findInlineImage parts = (parts.find? ResponsePart.hasImageData).bind partDataUrl := by
  induction parts with
  | nil => rfl
  | cons p rest ih =>
    cases hp : p.inlineData with
    | none =>
      simp [findInlineImage, hp, List.find?, ResponsePart.hasImageData, ih]
    | some d =>
      cases hd : d.data with
      | none =>
        simp [findInlineImage, hp, hd, List.find?, ResponsePart.hasImageData, ih]
      | some s =>
        by_cases hs : s = ""
        · subst hs
          simp [findInlineImage, hp, hd, List.find?, ResponsePart.hasImageData, ih]
        · have hsb : (s == "") = false := beq_eq_false_iff_ne.mpr hs
          simp [findInlineImage, hp, hd, hs, hsb, List.find?, ResponsePart.hasImageData,
            partDataUrl]

/-- Claim C7, amended: with the client armed and the provider succeeding,
`generateSingleImage` returns the data URL of the first part of the FIRST
candidate that carries a non-empty inline payload; it fails with the
no-image-produced error when the candidates field is absent, or when the
first candidate exists but its parts are absent or contain no usable
inline payload; when the candidate list is present but empty it instead
fails with a TypeError (reading `content` of `undefined`). -/
theorem renderImage_first_inline_spec (k prompt : String) (ref : Option String)
    (resp : ImageResponse) :
    (resp.candidates = none →
      generateSingleImage (some k) (.ok resp) prompt ref = .error (.jsError noImageMsg)) ∧
    (resp.candidates = some [] →
      generateSingleImage (some k) (.ok resp) prompt ref =
        .error (.jsError typeErrorContentMsg)) ∧
    (∀ c rest, resp.candidates = some (c :: rest) →
      generateSingleImage (some k) (.ok resp) prompt ref =
        (match c.content.parts with
          | none => .error (.jsError noImageMsg)
          | some parts =>
            match (parts.find? ResponsePart.hasImageData).bind partDataUrl with
            | some url => .ok url
            | none => .error (.jsError noImageMsg))) := by
  refine ⟨?_, ?_, ?_⟩
  · intro h
    simp [generateSingleImage, getClient, extractFirstImage, h]
  · intro h
    simp [generateSingleImage, getClient, extractFirstImage, h]
  · intro c rest h
    have hg : generateSingleImage (some k) (.ok resp) prompt ref = extractFirstImage resp := rfl
    rw [hg]
    rw [show extractFirstImage resp =
      (match c.content.parts with
        | none => .error (.jsError noImageMsg)
        | some parts =>
          match findInlineImage parts with
          | some url => .ok url
          | none => .error (.jsError noImageMsg)) from by rw [extractFirstImage, h]]
    cases hp : c.content.parts with
    | none => rfl
    | some parts =>
      simp only [← findInlineImage_eq_find]

/-- A concrete inline payload used by the witnesses. -/
def sampleInline : InlineData := { mimeType := some "image/png", data := some "AAAA" }

/-- A concrete response part holding `sampleInline`. -/
def samplePart : ResponsePart := { inlineData := some sampleInline }

/-- A concrete successful image response with one candidate and one part. -/
def sampleImageResponse : ImageResponse :=
  { candidates := some [{ content := { parts := some [samplePart] } }] }

/-- Claim C7, witness for the amended theorem: a concrete response whose
first candidate carries one inline payload yields its data URL. -/
theorem renderImage_first_inline_spec_witness :
    generateSingleImage (some "k") (.ok sampleImageResponse) "p" none =
      .ok "data:image/png;base64,AAAA" :=
  (renderImage_first_inline_spec "k" "p" none sampleImageResponse).2.2 _ [] rfl

/-- The last element of a list extended by two elements. -/
theorem getLast?_append_pair (l : List Char) (a b : Char) :
    (l ++ [a, b]).getLast? = some b := by
  have h : l ++ [a, b] = (l ++ [a]) ++ [b] := by simp
  rw [h, List.getLast?_concat]

/-- Strings of the shape `prefixPart-c` and `otherPart-d` differ whenever
the final characters differ, whatever the leading parts are. -/
theorem append_last_ne (x y cs ds : String) (c d : Char)
    (hcs : cs.data = [c]) (hds : ds.data = [d]) (hne : c ≠ d) :
    x ++ "-" ++ cs ≠ y ++ "-" ++ ds := by
  intro he
  apply hne
  have hdata := congrArg String.data he
  rw [String.data_append, String.data_append, String.data_append, String.data_append,
    hcs, hds] at hdata
  have hdash : ("-" : String).data = ['-'] := rfl
  rw [hdash, List.append_assoc, List.append_assoc] at hdata
  have h1 : (x.data ++ (['-'] ++ [c])).getLast? = some c := getLast?_append_pair x.data '-' c
  have h2 : (y.data ++ (['-'] ++ [d])).getLast? = some d := getLast?_append_pair y.data '-' d
  rw [hdata, h2] at h1
  exact (Option.some.inj h1).symm

/-- Unfolding of the id-assignment step on a four-element url list. -/
theorem mkGeneratedImages_four (clock : Nat → Nat) (prompt u0 u1 u2 u3 : String) :
    mkGeneratedImages clock prompt [u0, u1, u2, u3] =
      [{ id := toString (clock 0) ++ "-" ++ toString (0 : Nat), url := u0,
          prompt := prompt, createdAt := clock 1 },
        { id := toString (clock 2) ++ "-" ++ toString (1 : Nat), url := u1,
          prompt := prompt, createdAt := clock 3 },
        { id := toString (clock 4) ++ "-" ++ toString (2 : Nat), url := u2,
          prompt := prompt, createdAt := clock 5 },
        { id := toString (clock 6) ++ "-" ++ toString (3 : Nat), url := u3,
          prompt := prompt, createdAt := clock 7 }] := rfl

/-- The four ids produced for one wallpaper set are pairwise distinct:
whatever the clock returns, each id ends in a distinct digit. -/
theorem mkGeneratedImages_four_id_pairwise (clock : Nat → Nat) (prompt u0 u1 u2 u3 : String) :
    (mkGeneratedImages clock prompt [u0, u1, u2, u3]).Pairwise
      (fun a b => a.id ≠ b.id) := by
  rw [mkGeneratedImages_four]
  refine List.Pairwise.cons ?_ (List.Pairwise.cons ?_ (List.Pairwise.cons ?_
    (List.Pairwise.cons ?_ List.Pairwise.nil)))
  · intro g hg
    simp only [List.mem_cons, List.not_mem_nil, or_false] at hg
    rcases hg with h | h | h <;> subst h <;>
      first
      | exact append_last_ne _ _ _ _ '0' '1' (by decide) (by decide) (by decide)
      | exact append_last_ne _ _ _ _ '0' '2' (by decide) (by decide) (by decide)
      | exact append_last_ne _ _ _ _ '0' '3' (by decide) (by decide) (by decide)
  · intro g hg
    simp only [List.mem_cons, List.not_mem_nil, or_false] at hg
    rcases hg with h | h <;> subst h <;>
      first
      | exact append_last_ne _ _ _ _ '1' '2' (by decide) (by decide) (by decide)
      | exact append_last_ne _ _ _ _ '1' '3' (by decide) (by decide) (by decide)
  · intro g hg
    simp only [List.mem_cons, List.not_mem_nil, or_false] at hg
    subst hg
    exact append_last_ne _ _ _ _ '2' '3' (by decide) (by decide) (by decide)
  · intro g hg
    exact absurd hg (List.not_mem_nil g)

/-- Every record of one wallpaper set carries the requested prompt. -/
theorem mkGeneratedImages_four_prompt (clock : Nat → Nat) (prompt u0 u1 u2 u3 : String) :
    ∀ g ∈ mkGeneratedImages clock prompt [u0, u1, u2, u3], g.prompt = prompt := by
  rw [mkGeneratedImages_four]
  intro g hg
  simp only [List.mem_cons, List.not_mem_nil, or_false] at hg
  rcases hg with h | h | h | h <;> subst h <;> rfl

/-- Claim C3: `generateWallpapers` issues exactly 4 `generateSingleImage`
calls with identical prompt and reference inputs (one per provider oracle
entry).  When all 4 succeed it returns exactly 4 GeneratedImage entries
with pairwise distinct ids, all carrying the given prompt; when any call
fails it returns a single aggregate thrown error (one of the two fixed
aggregate messages) and no partial results. -/
theorem renderWallpaperSet_all_or_nothing (k prompt : String)
    (providers : Fin 4 → Except Thrown ImageResponse) (clock : Nat → Nat)
    (ref : Option String) :
    ((∀ i : Fin 4, exceptOk (generateSingleImage (some k) (providers i) prompt ref) = true) →
      ∃ l, generateWallpapers (some k) providers clock prompt ref = .ok l ∧
        l.length = 4 ∧ l.Pairwise (fun a b => a.id ≠ b.id) ∧
        ∀ g ∈ l, g.prompt = prompt) ∧
    ((∃ i : Fin 4, exceptOk (generateSingleImage (some k) (providers i) prompt ref) = false) →
      ∃ m, generateWallpapers (some k) providers clock prompt ref =
          .error (.jsError m) ∧
        (m = wallpaperMissingKeyMsg ∨ m = wallpaperFailMsg)) := by
  constructor
  · intro hall
    obtain ⟨u0, hx0⟩ : ∃ u, generateSingleImage (some k) (providers 0) prompt ref = .ok u := by
      have h := hall 0
      cases hx : generateSingleImage (some k) (providers 0) prompt ref with
      | ok u => exact ⟨u, rfl⟩
      | error e => rw [hx] at h; exact absurd h (by simp [exceptOk])
    obtain ⟨u1, hx1⟩ : ∃ u, generateSingleImage (some k) (providers 1) prompt ref = .ok u := by
      have h := hall 1
      cases hx : generateSingleImage (some k) (providers 1) prompt ref with
      | ok u => exact ⟨u, rfl⟩
      | error e => rw [hx] at h; exact absurd h (by simp [exceptOk])
    obtain ⟨u2, hx2⟩ : ∃ u, generateSingleImage (some k) (providers 2) prompt ref = .ok u := by
      have h := hall 2
      cases hx : generateSingleImage (some k) (providers 2) prompt ref with
      | ok u => exact ⟨u, rfl⟩
      | error e => rw [hx] at h; exact absurd h (by simp [exceptOk])
    obtain ⟨u3, hx3⟩ : ∃ u, generateSingleImage (some k) (providers 3) prompt ref = .ok u := by
      have h := hall 3
      cases hx : generateSingleImage (some k) (providers 3) prompt ref with
      | ok u => exact ⟨u, rfl⟩
      | error e => rw [hx] at h; exact absurd h (by simp [exceptOk])
    refine ⟨mkGeneratedImages clock prompt [u0, u1, u2, u3], ?_, ?_, ?_, ?_⟩
    · simp only [generateWallpapers, promiseAll4, hx0, hx1, hx2, hx3]
    · rw [mkGeneratedImages_four]; rfl
    · exact mkGeneratedImages_four_id_pairwise clock prompt u0 u1 u2 u3
    · exact mkGeneratedImages_four_prompt clock prompt u0 u1 u2 u3
  · rintro ⟨i, hi⟩
    cases hx0 : generateSingleImage (some k) (providers 0) prompt ref with
    | error e =>
      by_cases hk : isApiKeyError e
      · exact ⟨wallpaperMissingKeyMsg,
          by simp only [generateWallpapers, promiseAll4, hx0, hk, if_true], Or.inl rfl⟩
      · exact ⟨wallpaperFailMsg,
          by simp only [generateWallpapers, promiseAll4, hx0, hk, if_false,
            Bool.false_eq_true], Or.inr rfl⟩
    | ok u0 =>
      cases hx1 : generateSingleImage (some k) (providers 1) prompt ref with
      | error e =>
        by_cases hk : isApiKeyError e
        · exact ⟨wallpaperMissingKeyMsg,
            by simp only [generateWallpapers, promiseAll4, hx0, hx1, hk, if_true], Or.inl rfl⟩
        · exact ⟨wallpaperFailMsg,
            by simp only [generateWallpapers, promiseAll4, hx0, hx1, hk, if_false,
              Bool.false_eq_true], Or.inr rfl⟩
      | ok u1 =>
        cases hx2 : generateSingleImage (some k) (providers 2) prompt ref with
        | error e =>
          by_cases hk : isApiKeyError e
          · exact ⟨wallpaperMissingKeyMsg,
              by simp only [generateWallpapers, promiseAll4, hx0, hx1, hx2, hk, if_true],
              Or.inl rfl⟩
          · exact ⟨wallpaperFailMsg,
              by simp only [generateWallpapers, promiseAll4, hx0, hx1, hx2, hk, if_false,
                Bool.false_eq_true], Or.inr rfl⟩
        | ok u2 =>
          cases hx3 : generateSingleImage (some k) (providers 3) prompt ref with
          | error e =>
            by_cases hk : isApiKeyError e
            · exact ⟨wallpaperMissingKeyMsg,
                by simp only [generateWallpapers, promiseAll4, hx0, hx1, hx2, hx3, hk,
                  if_true], Or.inl rfl⟩
            · exact ⟨wallpaperFailMsg,
                by simp only [generateWallpapers, promiseAll4, hx0, hx1, hx2, hx3, hk,
                  if_false, Bool.false_eq_true], Or.inr rfl⟩
          | ok u3 =>
            exfalso
            have hall2 : ∀ j : Fin 4,
                exceptOk (generateSingleImage (some k) (providers j) prompt ref) = true := by
              intro j
              obtain ⟨jv, hj⟩ := j
              interval_cases jv
              · show exceptOk (generateSingleImage (some k) (providers 0) prompt ref) = true
                rw [hx0]; rfl
              · show exceptOk (generateSingleImage (some k) (providers 1) prompt ref) = true
                rw [hx1]; rfl
              · show exceptOk (generateSingleImage (some k) (providers 2) prompt ref) = true
                rw [hx2]; rfl
              · show exceptOk (generateSingleImage (some k) (providers 3) prompt ref) = true
                rw [hx3]; rfl
            rw [hall2 i] at hi
            exact absurd hi (by decide)

/-- Claim C3, witness: with an armed client and a provider stub for which
all four calls succeed, a concrete wallpaper set of 4 entries with
distinct ids and the shared prompt is produced. -/
theorem renderWallpaperSet_all_or_nothing_witness :
    ∃ l, generateWallpapers (some "key") (fun j => .ok sampleImageResponse) (fun n => n)
        "sunset" none = .ok l ∧
      l.length = 4 ∧ l.Pairwise (fun a b => a.id ≠ b.id) ∧
      ∀ g ∈ l, g.prompt = "sunset" :=
  (renderWallpaperSet_all_or_nothing "key" "sunset" (fun j => .ok sampleImageResponse)
    (fun n => n) none).1 (fun i => rfl)

/-- Claim C8: whenever `handleGenerate` actually issues a generation
request (the in-flight snapshot exists), the snapshot shows an empty
result set and a cleared error: stale results and stale errors are
cleared before the request is issued. -/
theorem coordinator_clears_before_request (genAI : Option String)
    (providers : Fin 4 → Except Thrown ImageResponse) (clock : Nat → Nat)
    (s inflight : AppState)
    (h : (handleGenerate genAI providers clock s).2 = some inflight) :
    inflight.images = [] ∧ inflight.error = none := by
  simp only [handleGenerate] at h
  by_cases h1 : s.apiKey = ""
  · rw [if_pos h1] at h
    exact absurd h (by simp)
  · rw [if_neg h1] at h
    by_cases h2 : jsTrim s.prompt = ""
    · rw [if_pos h2] at h
      exact absurd h (by simp)
    · rw [if_neg h2] at h
      simp only [Option.some.injEq] at h
      rw [← h]
      exact ⟨rfl, rfl⟩

/-- A previously generated image populating the stale state. -/
def sampleOldImage : GeneratedImage :=
  { id := "old", url := "u", prompt := "p", createdAt := 0 }

/-- A coordinator state holding stale results and a stale error. -/
def sampleAppState : AppState :=
  { apiKey := "key", prompt := "sunset", images := [sampleOldImage], isLoading := false,
    error := some "boom", remixSource := none, isSettingsOpen := false }

/-- The in-flight snapshot reached from `sampleAppState`. -/
def samplePre : AppState :=
  { sampleAppState with isLoading := true, error := none, images := [] }

/-- Claim C8, witness: from a concrete stale state, the request is issued
and the concrete in-flight snapshot has no images and no error. -/
theorem coordinator_clears_before_request_witness :
    (handleGenerate (some "key") (fun j => .ok sampleImageResponse) (fun n => n)
        sampleAppState).2 = some samplePre ∧
      samplePre.images = [] ∧ samplePre.error = none :=
  ⟨rfl, coordinator_clears_before_request (some "key") (fun j => .ok sampleImageResponse)
    (fun n => n) sampleAppState samplePre rfl⟩
